import Mathlib

/-!
Verification of `src/vulkano/src/command_buffer/commands_raw/update_buffer.rs`.

We shallowly embed the `CmdUpdateBuffer` command value, its three
constructors (`new`, `from_access`, `unchecked_type`), the `buffer`
accessor, and the `AddCommand` injection implementation.

Machine integers: `vk::DeviceSize` is `u64` and the sizes/offsets reported
by a `BufferAccess` are `usize`. All arithmetic performed by the code
(`% 4`, comparison with `65536`, the `as vk::DeviceSize` widening cast)
cannot overflow, so we model these quantities as `Nat`.
-/

namespace UpdateBuffer

/-- The part of the `BufferInner` / raw-buffer interface used by
`unchecked_type`: the "transfer destination" usage flag
(`usage_transfer_dest`) and the raw Vulkan handle (`internal_object`). -/
structure BufferInner where
  usage_transfer_dest : Bool
  internal_object : Nat
  deriving DecidableEq, Repr

/-- Model of a value implementing the `BufferAccess` trait, restricted to
the observations `unchecked_type` makes: `size()` and `inner()`, the
latter yielding a `BufferInner { buffer, offset }` pair. -/
structure BufferAccess where
  size : Nat
  inner : BufferInner
  offset : Nat
  deriving DecidableEq, Repr

/-- Model of a value implementing `Buffer<Access = B> + TypedBuffer`:
the only operation `new` performs on it is `access()`. -/
structure Buffer where
  access : BufferAccess
  deriving DecidableEq, Repr

/-- `CmdUpdateBufferError` from the source, verbatim. -/
inductive CmdUpdateBufferError where
  | BufferMissingUsage
  | WrongAlignment
  | DataTooLarge
  deriving DecidableEq, Repr

/-- The `CmdUpdateBuffer<B, D>` struct with `B` fixed to our
`BufferAccess` model and `D` the payload type. -/
structure CmdUpdateBuffer (D : Type) where
  buffer : BufferAccess
  buffer_handle : Nat
  offset : Nat
  size : Nat
  data : D
  deriving DecidableEq, Repr

/-- `CmdUpdateBuffer::unchecked_type`, translated statement by statement.
The Rust body is a sequence of early returns, which is exactly a nested
if-else chain: read `size`, destructure `inner()` into the inner buffer
and `offset`, check the transfer-dest usage flag, check `offset % 4`,
capture the handle, check `size % 4`, check `size > 65536`, then build
the struct. -/
def unchecked_type {D : Type} (buffer : BufferAccess) (data : D) :
    Except CmdUpdateBufferError (CmdUpdateBuffer D) :=
  let size := buffer.size
  let inner := buffer.inner
  let offset := buffer.offset
  if inner.usage_transfer_dest = false then
    Except.error CmdUpdateBufferError.BufferMissingUsage
  else if offset % 4 ≠ 0 then
    Except.error CmdUpdateBufferError.WrongAlignment
  else
    let buffer_handle := inner.internal_object
    if size % 4 ≠ 0 then
      Except.error CmdUpdateBufferError.WrongAlignment
    else if size > 65536 then
      Except.error CmdUpdateBufferError.DataTooLarge
    else
      Except.ok { buffer := buffer
                  buffer_handle := buffer_handle
                  offset := offset
                  size := size
                  data := data }

/-- `CmdUpdateBuffer::new`: delegates to `unchecked_type(buffer.access(), data)`. -/
def new {D : Type} (buffer : Buffer) (data : D) :
    Except CmdUpdateBufferError (CmdUpdateBuffer D) :=
  unchecked_type buffer.access data

/-- `CmdUpdateBuffer::from_access`: delegates to `unchecked_type(buffer, data)`. -/
def from_access {D : Type} (buffer : BufferAccess) (data : D) :
    Except CmdUpdateBufferError (CmdUpdateBuffer D) :=
  unchecked_type buffer data

/-- The `buffer()` accessor: returns (a reference to) the stored buffer. -/
def CmdUpdateBuffer.bufferRef {D : Type} (c : CmdUpdateBuffer D) : BufferAccess :=
  c.buffer

/-- `CommandAddError`. Modelled from the spec: the enum itself lives
outside the inspected file (only imported here); per the spec it is a
"generic command-addition failure defined by the surrounding builder
protocol (e.g., builder in a non-recording state)". -/
inductive CommandAddError where
  | BuilderNotRecording
  deriving DecidableEq, Repr

/-- One raw `vkCmdUpdateBuffer` invocation as marshalled by the
`AddCommand` impl: the builder's recording handle and the command's
captured handle, offset, size, and payload (a raw pointer to the
payload's bytes, modelled by its value). -/
structure NativeUpdateCall (D : Type) where
  cmd : Nat
  buffer_handle : Nat
  offset : Nat
  size : Nat
  data : D
  deriving DecidableEq, Repr

/-- Model of `UnsafeCommandBufferBuilder<P>` as observed by the
`AddCommand` impl: the only operations are `self.device().pointers()`
(the native entry points, pure marshalling) and `self.internal_object()`. -/
structure UnsafeCommandBufferBuilder where
  internal_object : Nat
  deriving DecidableEq, Repr

/-- `AddCommand::add` for `CmdUpdateBuffer`: performs the single native
`vk.CmdUpdateBuffer(cmd, handle, offset, size, data)` call and returns
`Ok(self)`. The native side effect is reified as the list of native
calls the invocation emits (first component); the second component is
the returned `Result`. -/
def add {D : Type} (self : UnsafeCommandBufferBuilder) (command : CmdUpdateBuffer D) :
    List (NativeUpdateCall D) × Except CommandAddError UnsafeCommandBufferBuilder :=
  ([{ cmd := self.internal_object
      buffer_handle := command.buffer_handle
      offset := command.offset
      size := command.size
      data := command.data }],
   Except.ok self)

/-- Observable construction outcome: `none` on success, the error kind
on failure. -/
def outcome {D : Type} (r : Except CmdUpdateBufferError (CmdUpdateBuffer D)) :
    Option CmdUpdateBufferError :=
  match r with
  | Except.ok _ => none
  | Except.error e => some e

/-! Concrete instances used by the witnesses. -/

/-- A resource with the transfer-destination usage flag set, handle 7,
offset 0, size 64. -/
def goodBuf : BufferAccess := ⟨64, ⟨true, 7⟩, 0⟩

/-- The typed (`Buffer`) wrapper of [`goodBuf`]. -/
def goodTyped : Buffer := ⟨goodBuf⟩

/-- The command `unchecked_type goodBuf 42` constructs. -/
def goodCmd : CmdUpdateBuffer Nat := ⟨goodBuf, 7, 0, 64, 42⟩

/-- A resource lacking the transfer-destination usage flag. -/
def noUsageBuf : BufferAccess := ⟨64, ⟨false, 7⟩, 0⟩

/-- A resource with misaligned offset 2 and size 64 (usage flag set). -/
def badOffsetBuf : BufferAccess := ⟨64, ⟨true, 7⟩, 2⟩

/-- A resource with aligned offset but misaligned size 66. -/
def badSizeBuf : BufferAccess := ⟨66, ⟨true, 7⟩, 0⟩

/-- A resource with aligned offset and size but size 65540 > 65536. -/
def tooLargeBuf : BufferAccess := ⟨65540, ⟨true, 7⟩, 0⟩

/-- A resource sitting exactly on the 65536-byte cap. -/
def capBuf : BufferAccess := ⟨65536, ⟨true, 7⟩, 0⟩

/-! Shared characterization of the success case. -/

/-- `unchecked_type` succeeds exactly when the usage flag is set, offset
and size are multiples of 4 and the size is within the cap; the
constructed command then stores the buffer, its handle, its offset, its
size and the payload verbatim. -/
theorem unchecked_type_ok_iff {D : Type} (b : BufferAccess) (d : D)
    (c : CmdUpdateBuffer D) :
    unchecked_type b d = Except.ok c ↔
      b.inner.usage_transfer_dest = true ∧ b.offset % 4 = 0 ∧ b.size % 4 = 0 ∧
        b.size ≤ 65536 ∧
        c = { buffer := b, buffer_handle := b.inner.internal_object,
              offset := b.offset, size := b.size, data := d } := by
  unfold unchecked_type
  dsimp only
  split_ifs with h1 h2 h3 h4
  · simp [h1]
  · simp [h2]
  · simp [h3]
  · constructor
    · intro h
      exact h.elim
    · rintro ⟨-, -, -, hle, -⟩
      omega
  · rw [Bool.not_eq_false] at h1
    push_neg at h2 h3 h4
    simp only [Except.ok.injEq]
    constructor
    · intro h
      exact ⟨h1, h2, h3, h4, h.symm⟩
    · rintro ⟨-, -, -, -, hc⟩
      exact hc.symm

/-- Helper: field values of a successfully constructed command. -/
theorem unchecked_type_ok_fields {D : Type} {b : BufferAccess} {d : D}
    {c : CmdUpdateBuffer D} (h : unchecked_type b d = Except.ok c) :
    c.offset % 4 = 0 ∧ c.size % 4 = 0 ∧ c.size ≤ 65536 ∧
      c.buffer_handle = b.inner.internal_object ∧ c.offset = b.offset ∧
      c.size = b.size ∧ c.bufferRef = b := by
  obtain ⟨hu, ho, hs, hc, hceq⟩ := (unchecked_type_ok_iff b d c).1 h
  subst hceq
  exact ⟨ho, hs, hc, rfl, rfl, rfl, rfl⟩

/-- Helper: with the usage flag unset, construction reports the missing
usage. -/
theorem unchecked_type_no_usage {D : Type} (b : BufferAccess) (d : D)
    (h : b.inner.usage_transfer_dest = false) :
    unchecked_type b d = Except.error CmdUpdateBufferError.BufferMissingUsage := by
  unfold unchecked_type
  dsimp only
  rw [if_pos h]

/-- Helper: with the usage flag set and a misaligned offset, construction
reports the wrong alignment (whatever the size). -/
theorem unchecked_type_bad_offset {D : Type} (b : BufferAccess) (d : D)
    (husage : b.inner.usage_transfer_dest = true) (hoff : b.offset % 4 ≠ 0) :
    unchecked_type b d = Except.error CmdUpdateBufferError.WrongAlignment := by
  unfold unchecked_type
  dsimp only
  rw [if_neg (by simp [husage]), if_pos hoff]

/-- Helper: with the usage flag set, an aligned offset and a misaligned
size, construction reports the wrong alignment. -/
theorem unchecked_type_bad_size {D : Type} (b : BufferAccess) (d : D)
    (husage : b.inner.usage_transfer_dest = true) (hoff : b.offset % 4 = 0)
    (hsize : b.size % 4 ≠ 0) :
    unchecked_type b d = Except.error CmdUpdateBufferError.WrongAlignment := by
  unfold unchecked_type
  dsimp only
  rw [if_neg (by simp [husage]), if_neg (by simp [hoff]), if_pos hsize]

/-- Helper: with the usage flag set, aligned offset and size, and a size
beyond the cap, construction reports the data as too large. -/
theorem unchecked_type_too_large {D : Type} (b : BufferAccess) (d : D)
    (husage : b.inner.usage_transfer_dest = true) (hoff : b.offset % 4 = 0)
    (hsize : b.size % 4 = 0) (hcap : b.size > 65536) :
    unchecked_type b d = Except.error CmdUpdateBufferError.DataTooLarge := by
  unfold unchecked_type
  dsimp only
  rw [if_neg (by simp [husage]), if_neg (by simp [hoff]),
      if_neg (by simp [hsize]), if_pos hcap]

/-- Claim C1: every successfully constructed command — via `new`,
`from_access` or `unchecked_type` — stores an offset that is a multiple
of 4, a size that is a multiple of 4 and at most 65536, and exactly the
native handle, offset and size the resource reported at construction
time; the `buffer()` accessor returns the stored resource. (In this pure
embedding a constructed value is immutable, so these fields cannot change
after construction and the accessor returns the same resource on every
call.) -/
theorem construction_invariants {D : Type} (p : Buffer) (b : BufferAccess)
    (d : D) (c : CmdUpdateBuffer D) :
    (unchecked_type b d = Except.ok c →
        c.offset % 4 = 0 ∧ c.size % 4 = 0 ∧ c.size ≤ 65536 ∧
          c.buffer_handle = b.inner.internal_object ∧ c.offset = b.offset ∧
          c.size = b.size ∧ c.bufferRef = b) ∧
    (from_access b d = Except.ok c →
        c.offset % 4 = 0 ∧ c.size % 4 = 0 ∧ c.size ≤ 65536 ∧
          c.buffer_handle = b.inner.internal_object ∧ c.offset = b.offset ∧
          c.size = b.size ∧ c.bufferRef = b) ∧
    (new p d = Except.ok c →
        c.offset % 4 = 0 ∧ c.size % 4 = 0 ∧ c.size ≤ 65536 ∧
          c.buffer_handle = p.access.inner.internal_object ∧
          c.offset = p.access.offset ∧ c.size = p.access.size ∧
          c.bufferRef = p.access) :=
  ⟨fun h => unchecked_type_ok_fields h,
   fun h => unchecked_type_ok_fields h,
   fun h => unchecked_type_ok_fields h⟩

/-- Witness for C1 at the concrete resource `goodBuf` (usage set,
offset 0, size 64) with payload 42. -/
theorem construction_invariants_witness :
    unchecked_type goodBuf (42 : Nat) = Except.ok goodCmd ∧
      (goodCmd.offset % 4 = 0 ∧ goodCmd.size % 4 = 0 ∧ goodCmd.size ≤ 65536 ∧
        goodCmd.buffer_handle = goodBuf.inner.internal_object ∧
        goodCmd.offset = goodBuf.offset ∧ goodCmd.size = goodBuf.size ∧
        goodCmd.bufferRef = goodBuf) :=
  ⟨rfl, (construction_invariants goodTyped goodBuf 42 goodCmd).1 rfl⟩

/-- Claim C2: `unchecked_type` performs its checks in the fixed order
usage flag, offset alignment, size alignment, size cap, returning the
error of the first violated check regardless of whether later checks
would also fail. -/
theorem check_order {D : Type} (b : BufferAccess) (d : D) :
    (b.inner.usage_transfer_dest = false →
        unchecked_type b d = Except.error CmdUpdateBufferError.BufferMissingUsage) ∧
    (b.inner.usage_transfer_dest = true → b.offset % 4 ≠ 0 →
        unchecked_type b d = Except.error CmdUpdateBufferError.WrongAlignment) ∧
    (b.inner.usage_transfer_dest = true → b.offset % 4 = 0 → b.size % 4 ≠ 0 →
        unchecked_type b d = Except.error CmdUpdateBufferError.WrongAlignment) ∧
    (b.inner.usage_transfer_dest = true → b.offset % 4 = 0 → b.size % 4 = 0 →
        b.size > 65536 →
        unchecked_type b d = Except.error CmdUpdateBufferError.DataTooLarge) :=
  ⟨fun h => unchecked_type_no_usage b d h,
   fun hu ho => unchecked_type_bad_offset b d hu ho,
   fun hu ho hs => unchecked_type_bad_size b d hu ho hs,
   fun hu ho hs hc => unchecked_type_too_large b d hu ho hs hc⟩

/-- Witness for C2: the four conjuncts at concrete resources, including
the spec scenarios offset = 2, size = 64, usage set (fails with
`WrongAlignment`) and usage flag unset (fails with `BufferMissingUsage`). -/
theorem check_order_witness :
    (noUsageBuf.inner.usage_transfer_dest = false ∧
      unchecked_type noUsageBuf (0 : Nat) =
        Except.error CmdUpdateBufferError.BufferMissingUsage) ∧
    (badOffsetBuf.inner.usage_transfer_dest = true ∧
      badOffsetBuf.offset % 4 ≠ 0 ∧
      unchecked_type badOffsetBuf (0 : Nat) =
        Except.error CmdUpdateBufferError.WrongAlignment) ∧
    (badSizeBuf.inner.usage_transfer_dest = true ∧ badSizeBuf.offset % 4 = 0 ∧
      badSizeBuf.size % 4 ≠ 0 ∧
      unchecked_type badSizeBuf (0 : Nat) =
        Except.error CmdUpdateBufferError.WrongAlignment) ∧
    (tooLargeBuf.inner.usage_transfer_dest = true ∧
      tooLargeBuf.offset % 4 = 0 ∧ tooLargeBuf.size % 4 = 0 ∧
      tooLargeBuf.size > 65536 ∧
      unchecked_type tooLargeBuf (0 : Nat) =
        Except.error CmdUpdateBufferError.DataTooLarge) :=
  ⟨⟨rfl, (check_order noUsageBuf (0 : Nat)).1 rfl⟩,
   ⟨rfl, by decide,
    (check_order badOffsetBuf (0 : Nat)).2.1 rfl (by decide)⟩,
   ⟨rfl, by decide, by decide,
    (check_order badSizeBuf (0 : Nat)).2.2.1 rfl (by decide) (by decide)⟩,
   ⟨rfl, by decide, by decide, by decide,
    (check_order tooLargeBuf (0 : Nat)).2.2.2 rfl (by decide) (by decide)
      (by decide)⟩⟩

/-- Claim C3: with the transfer-destination usage flag unset,
construction fails with `BufferMissingUsage` for every offset, size and
payload. -/
theorem missing_usage_fails {D : Type} (b : BufferAccess) (d : D)
    (h : b.inner.usage_transfer_dest = false) :
    unchecked_type b d = Except.error CmdUpdateBufferError.BufferMissingUsage :=
  unchecked_type_no_usage b d h

/-- Witness for C3 at `noUsageBuf` (usage unset, offset 0, size 64). -/
theorem missing_usage_fails_witness :
    noUsageBuf.inner.usage_transfer_dest = false ∧
      unchecked_type noUsageBuf (7 : Nat) =
        Except.error CmdUpdateBufferError.BufferMissingUsage :=
  ⟨rfl, missing_usage_fails noUsageBuf (7 : Nat) rfl⟩

/-- Claim C4: with the usage flag set and a valid size, a byte offset
that is not a multiple of 4 makes construction fail with
`WrongAlignment`. -/
theorem offset_misaligned_fails {D : Type} (b : BufferAccess) (d : D)
    (husage : b.inner.usage_transfer_dest = true) (hsize : b.size % 4 = 0)
    (hcap : b.size ≤ 65536) (hoff : b.offset % 4 ≠ 0) :
    unchecked_type b d = Except.error CmdUpdateBufferError.WrongAlignment :=
  unchecked_type_bad_offset b d husage hoff

/-- Witness for C4 at `badOffsetBuf` (usage set, offset 2, size 64). -/
theorem offset_misaligned_fails_witness :
    badOffsetBuf.inner.usage_transfer_dest = true ∧
      badOffsetBuf.size % 4 = 0 ∧ badOffsetBuf.size ≤ 65536 ∧
      badOffsetBuf.offset % 4 ≠ 0 ∧
      unchecked_type badOffsetBuf (7 : Nat) =
        Except.error CmdUpdateBufferError.WrongAlignment :=
  ⟨rfl, by decide, by decide, by decide,
   offset_misaligned_fails badOffsetBuf (7 : Nat) rfl (by decide) (by decide)
     (by decide)⟩

/-- Claim C5: with the usage flag set and the offset held valid (a
multiple of 4), a byte size that is not a multiple of 4 makes
construction fail with `WrongAlignment` — the size-alignment check fires
independently of the offset-alignment check. -/
theorem size_misaligned_fails {D : Type} (b : BufferAccess) (d : D)
    (husage : b.inner.usage_transfer_dest = true) (hoff : b.offset % 4 = 0)
    (hsize : b.size % 4 ≠ 0) :
    unchecked_type b d = Except.error CmdUpdateBufferError.WrongAlignment :=
  unchecked_type_bad_size b d husage hoff hsize

/-- Witness for C5 at `badSizeBuf` (usage set, offset 0, size 66). -/
theorem size_misaligned_fails_witness :
    badSizeBuf.inner.usage_transfer_dest = true ∧ badSizeBuf.offset % 4 = 0 ∧
      badSizeBuf.size % 4 ≠ 0 ∧
      unchecked_type badSizeBuf (7 : Nat) =
        Except.error CmdUpdateBufferError.WrongAlignment :=
  ⟨rfl, by decide, by decide,
   size_misaligned_fails badSizeBuf (7 : Nat) rfl (by decide) (by decide)⟩

/-- Claim C6: with the usage flag set and offset and size multiples of 4,
a byte size above 65536 makes construction fail with `DataTooLarge`,
while a byte size of exactly 65536 succeeds — the cap is
boundary-inclusive. -/
theorem size_cap_boundary {D : Type} (b : BufferAccess) (d : D)
    (husage : b.inner.usage_transfer_dest = true) (hoff : b.offset % 4 = 0)
    (hsize : b.size % 4 = 0) :
    (b.size > 65536 →
        unchecked_type b d = Except.error CmdUpdateBufferError.DataTooLarge) ∧
    (b.size = 65536 →
        unchecked_type b d =
          Except.ok { buffer := b, buffer_handle := b.inner.internal_object,
                      offset := b.offset, size := b.size, data := d }) :=
  ⟨fun hcap => unchecked_type_too_large b d husage hoff hsize hcap,
   fun hcap => (unchecked_type_ok_iff b d _).2
     ⟨husage, hoff, hsize, le_of_eq hcap, rfl⟩⟩

/-- Witness for C6: `tooLargeBuf` (size 65540) fails with `DataTooLarge`
and `capBuf` (size exactly 65536) succeeds. -/
theorem size_cap_boundary_witness :
    (tooLargeBuf.inner.usage_transfer_dest = true ∧
      tooLargeBuf.offset % 4 = 0 ∧ tooLargeBuf.size % 4 = 0 ∧
      tooLargeBuf.size > 65536 ∧
      unchecked_type tooLargeBuf (7 : Nat) =
        Except.error CmdUpdateBufferError.DataTooLarge) ∧
    (capBuf.inner.usage_transfer_dest = true ∧ capBuf.offset % 4 = 0 ∧
      capBuf.size % 4 = 0 ∧ capBuf.size = 65536 ∧
      unchecked_type capBuf (7 : Nat) =
        Except.ok { buffer := capBuf,
                    buffer_handle := capBuf.inner.internal_object,
                    offset := capBuf.offset, size := capBuf.size,
                    data := (7 : Nat) }) :=
  ⟨⟨rfl, by decide, by decide, by decide,
    (size_cap_boundary tooLargeBuf (7 : Nat) rfl (by decide) (by decide)).1
      (by decide)⟩,
   ⟨rfl, by decide, by decide, rfl,
    (size_cap_boundary capBuf (7 : Nat) rfl (by decide) (by decide)).2 rfl⟩⟩

/-- Claim C7: `new` and `from_access` delegate to `unchecked_type` and
add no runtime behavior: `new buffer data` returns exactly
`unchecked_type buffer.access data` and `from_access buffer data` returns
exactly `unchecked_type buffer data`, the same `Ok` value or error in
every case. -/
theorem typed_constructors_delegate {D : Type} (p : Buffer)
    (b : BufferAccess) (d : D) :
    new p d = unchecked_type p.access d ∧ from_access b d = unchecked_type b d :=
  ⟨rfl, rfl⟩

/-- Claim C8: `AddCommand::add` emits exactly one native
`CmdUpdateBuffer` call, whose arguments are the builder's recording
handle and the command's captured handle, offset, size and payload, and
returns `Ok` with the builder for further chaining; it performs no
additional validation. -/
theorem add_one_native_call {D : Type} (self : UnsafeCommandBufferBuilder)
    (command : CmdUpdateBuffer D) :
    (add self command).1 =
      [{ cmd := self.internal_object, buffer_handle := command.buffer_handle,
         offset := command.offset, size := command.size,
         data := command.data }] ∧
    (add self command).2 = Except.ok self :=
  ⟨rfl, rfl⟩

/-- Claim C9: the construction outcome — `Ok` versus which error — is
independent of the payload: for one resource and any two payload values
the outcomes coincide, because validation inspects only the resource. -/
theorem outcome_payload_independent {D : Type} (b : BufferAccess)
    (d₁ d₂ : D) :
    outcome (unchecked_type b d₁) = outcome (unchecked_type b d₂) := by
  unfold unchecked_type
  dsimp only
  split_ifs <;> rfl

/-- Claim C10: `AddCommand::add` is total over this implementation: it
always returns `Ok` with the builder and no path constructs a
`CommandAddError`. -/
theorem add_never_errors {D : Type} (self : UnsafeCommandBufferBuilder)
    (command : CmdUpdateBuffer D) :
    (add self command).2 = Except.ok self :=
  rfl

end UpdateBuffer
